import Mathlib

/-!
Shallow embedding of the pharmacokinetic core of the pwiki-api repository
(`src/structure.rs`): unit enums, dose and phase ranges, route profiles,
substances, ingestion events, dose classification and the effect-curve
evaluator.  `f64` values are modelled as exact rationals (`ℚ`); fallible
operations (Rust panics: `unwrap`, `unreachable!`, `unimplemented!`) are
modelled with `Option`, where `none` stands for the panic.
-/

namespace PWiki

/-- `DoseUnits` from `structure.rs` (mass/volume units of a dose). -/
inductive DoseUnits where
  | Mg
  | Ml
  | Ug
  | G
  | Invalid
deriving DecidableEq, Repr

/-- `TimeUnits` from `structure.rs`. -/
inductive TimeUnits where
  | Minutes
  | Hours
  | Seconds
  | Invalid
deriving DecidableEq, Repr

/-- `ROAs` (routes of administration) from `structure.rs`. -/
inductive ROAs where
  | Oral
  | Sublingual
  | Buccal
  | Insuffilation
  | Inhalation
  | Smoked
  | Vaporised
  | Intravenous
  | Intramuscular
  | Subcutaneous
  | Rectal
  | Transdermal
  | Invalid
deriving DecidableEq, Repr

/-- `DosageType` from `structure.rs` (declaration order preserved). -/
inductive DosageType where
  | Threshold
  | Heavy
  | Common
  | Light
  | Strong
  | BelowThreshold
deriving DecidableEq, Repr

/-- `DoseRange = std::ops::Range<f64>`: a half-open interval. -/
structure DoseRange where
  start : ℚ
  «end» : ℚ
deriving DecidableEq, Repr

/-- `Range::contains` for `Range<f64>`: `start <= v && v < end`. -/
def DoseRange.containsQ (r : DoseRange) (v : ℚ) : Bool :=
  decide (r.start ≤ v) && decide (v < r.«end»)

/-- `DoseTimeRange` from `structure.rs`; the `std::time::Duration` payload is
modelled as a rational number of seconds (it is carried along unchanged). -/
structure DoseTimeRange where
  duration : ℚ
  start : ℚ
  «end» : ℚ
  midpoint : ℚ
  units : TimeUnits
deriving DecidableEq, Repr

/-- `DoseTimeRange::ZERO`. -/
def DoseTimeRange.ZERO : DoseTimeRange :=
  { duration := 0, start := 0, «end» := 0, midpoint := 0, units := TimeUnits.Hours }

/-- `DoseTimeRange::midpoint()` — recomputed from the current start/end,
not the stored `midpoint` field. -/
def DoseTimeRange.midpointCalc (r : DoseTimeRange) : ℚ :=
  (r.start + r.«end») / 2

/-- `DoseTimeRange::as_hours`; the `unimplemented!()` arm (Invalid units)
is modelled as `none`. -/
def DoseTimeRange.as_hours (r : DoseTimeRange) : Option DoseTimeRange :=
  match r.units with
  | TimeUnits.Minutes =>
      some { duration := r.duration, start := r.start / 60, «end» := r.«end» / 60,
             midpoint := r.midpoint / 60, units := TimeUnits.Hours }
  | TimeUnits.Seconds =>
      some { duration := r.duration, start := r.start / 3600, «end» := r.«end» / 3600,
             midpoint := r.midpoint / 3600, units := TimeUnits.Hours }
  | TimeUnits.Hours => some r
  | TimeUnits.Invalid => none

/-- `DoseTimeRange::as_minutes`; `unimplemented!()` modelled as `none`. -/
def DoseTimeRange.as_minutes (r : DoseTimeRange) : Option DoseTimeRange :=
  match r.units with
  | TimeUnits.Seconds =>
      some { duration := r.duration, start := r.start / 60, «end» := r.«end» / 60,
             midpoint := r.midpoint / 60, units := TimeUnits.Minutes }
  | TimeUnits.Hours =>
      some { duration := r.duration, start := r.start * 60, «end» := r.«end» * 60,
             midpoint := r.midpoint * 60, units := TimeUnits.Minutes }
  | TimeUnits.Minutes => some r
  | TimeUnits.Invalid => none

/-- `DoseTimeRange::as_seconds`; `unimplemented!()` modelled as `none`. -/
def DoseTimeRange.as_seconds (r : DoseTimeRange) : Option DoseTimeRange :=
  match r.units with
  | TimeUnits.Minutes =>
      some { duration := r.duration, start := r.start * 60, «end» := r.«end» * 60,
             midpoint := r.midpoint * 60, units := TimeUnits.Seconds }
  | TimeUnits.Hours =>
      some { duration := r.duration, start := r.start * 3600, «end» := r.«end» * 3600,
             midpoint := r.midpoint * 3600, units := TimeUnits.Seconds }
  | TimeUnits.Seconds => some r
  | TimeUnits.Invalid => none

/-- `Duration` from `structure.rs`: the named optional phase ranges. -/
structure Duration where
  afterglow : Option DoseTimeRange := none
  comeup : Option DoseTimeRange := none
  duration : Option DoseTimeRange := none
  offset : Option DoseTimeRange := none
  onset : Option DoseTimeRange := none
  peak : Option DoseTimeRange := none
  total : Option DoseTimeRange := none
deriving DecidableEq, Repr

/-- `DoseMetadata` from `structure.rs`. -/
structure DoseMetadata where
  units : DoseUnits
  threshold : Option ℚ := none
  heavy : Option ℚ := none
  common : Option DoseRange := none
  light : Option DoseRange := none
  strong : Option DoseRange := none
deriving DecidableEq, Repr

/-- `RouteOfAdministration` from `structure.rs`. -/
structure RouteOfAdministration where
  ty : ROAs
  dose_metadata : DoseMetadata
  duration : Duration
deriving DecidableEq, Repr

/-- `UncertainInteraction`. -/
structure UncertainInteraction where
  name : String
deriving DecidableEq, Repr

/-- `UnsafeInteraction`. -/
structure UnsafeInteraction where
  name : String
deriving DecidableEq, Repr

/-- `DangerousInteraction`. -/
structure DangerousInteraction where
  name : String
deriving DecidableEq, Repr

/-- `Substance` from `structure.rs`. -/
structure Substance where
  name : String
  cross_tolerances : List String
  routes_of_administration : List RouteOfAdministration
  uncertain_interactions : List UncertainInteraction
  unsafe_interactions : List UnsafeInteraction
  dangerous_interactions : List DangerousInteraction
deriving DecidableEq, Repr

/-- `Ingestion` from `structure.rs`; the `DateTime<Utc>` timestamp is
modelled as an integer (it plays no role in any computation). -/
structure Ingestion where
  units : DoseUnits
  amount : ℚ
  timestamp : ℤ
  route_of_administration : ROAs
  substance : Substance
deriving DecidableEq, Repr

/-- `Ingestion::new`. -/
def Ingestion.new (amount : ℚ) (units : DoseUnits) (timestamp : ℤ)
    (route_of_administration : ROAs) (substance : Substance) : Ingestion :=
  { units := units, amount := amount, timestamp := timestamp,
    route_of_administration := route_of_administration, substance := substance }

/-- `Substance::new_ingestion`. -/
def Substance.new_ingestion (self : Substance) (amount : ℚ) (units : DoseUnits)
    (timestamp : ℤ) (route_of_administration : ROAs) : Ingestion :=
  Ingestion.new amount units timestamp route_of_administration self

/-- `Substance::route_of_administration`: `.iter().find(...)` returns the
first element whose `ty` matches. -/
def Substance.route_of_administration (self : Substance) (roa : ROAs) :
    Option RouteOfAdministration :=
  self.routes_of_administration.find? (fun i => decide (i.ty = roa))

/-- `Ingestion::normalise_as_units` (pure variant): the `unreachable!()` arm
is modelled as `none`.  Note that the source keeps the old `units` field
(`..self.clone()`) on the converted copies. -/
def Ingestion.normalise_as_units (self : Ingestion) (units : DoseUnits) :
    Option Ingestion :=
  match self.units, units with
  | DoseUnits.Mg, DoseUnits.G => some { self with amount := self.amount / 1000 }
  | DoseUnits.Ug, DoseUnits.Mg => some { self with amount := self.amount / 1000 }
  | DoseUnits.G, DoseUnits.Mg => some { self with amount := self.amount * 1000 }
  | DoseUnits.Mg, DoseUnits.Ug => some { self with amount := self.amount * 1000 }
  | DoseUnits.Ug, DoseUnits.G => some { self with amount := self.amount / 1000000 }
  | DoseUnits.G, DoseUnits.Ug => some { self with amount := self.amount * 1000000 }
  | l, r => if l = r then some self else none

/-- `Ingestion::normalise_to_units` (in-place variant): unsupported unit
pairs hit the `_ => return` arm, leaving the ingestion entirely unchanged. -/
def Ingestion.normalise_to_units (self : Ingestion) (units : DoseUnits) : Ingestion :=
  match self.units, units with
  | DoseUnits.Mg, DoseUnits.G => { self with amount := self.amount / 1000, units := units }
  | DoseUnits.Ug, DoseUnits.Mg => { self with amount := self.amount / 1000, units := units }
  | DoseUnits.G, DoseUnits.Mg => { self with amount := self.amount * 1000, units := units }
  | DoseUnits.Mg, DoseUnits.Ug => { self with amount := self.amount * 1000, units := units }
  | DoseUnits.Ug, DoseUnits.G => { self with amount := self.amount / 1000000, units := units }
  | DoseUnits.G, DoseUnits.Ug => { self with amount := self.amount * 1000000, units := units }
  | _, _ => self

/-- `RouteOfAdministration::dosage_type`: the source evaluates
`dosage.normalise_as_units(self.dose_metadata.units)` and DISCARDS the
result (so a panic inside it still aborts, modelled by the `Option.map`),
then classifies the raw `dosage.amount`. -/
def RouteOfAdministration.dosage_type (self : RouteOfAdministration)
    (dosage : Ingestion) : Option DosageType :=
  (dosage.normalise_as_units self.dose_metadata.units).map fun _ =>
    if self.dose_metadata.heavy.any (fun heavy => decide (heavy ≤ dosage.amount)) then
      DosageType.Heavy
    else if self.dose_metadata.threshold.any (fun threshold => decide (dosage.amount = threshold)) then
      DosageType.Threshold
    else if self.dose_metadata.light.any (fun light => light.containsQ dosage.amount) then
      DosageType.Light
    else if self.dose_metadata.common.any (fun common => common.containsQ dosage.amount) then
      DosageType.Common
    else if self.dose_metadata.strong.any (fun strong => strong.containsQ dosage.amount) then
      DosageType.Strong
    else
      DosageType.BelowThreshold

/-- `Substance::dosage_type`: outer `none` = route not found; inner `none`
= panic inside `RouteOfAdministration::dosage_type`. -/
def Substance.dosage_type (self : Substance) (dosage : Ingestion) :
    Option (Option DosageType) :=
  (self.routes_of_administration.find?
      (fun i => decide (i.ty = dosage.route_of_administration))).map
    (fun roa => roa.dosage_type dosage)

/-- `Ingestion::roa`: the `.unwrap()` panic on a missing route is the
`none` case. -/
def Ingestion.roa (self : Ingestion) : Option RouteOfAdministration :=
  self.substance.route_of_administration self.route_of_administration

/-- `Ingestion::dosage_type`. -/
def Ingestion.dosage_type (self : Ingestion) : Option (Option DosageType) :=
  self.substance.dosage_type self

/-- `lerp` from `structure.rs`. -/
def lerp (f1 f2 t : ℚ) : ℚ :=
  f1 * (1 - t) + f2 * t

/-- Offset step of `calc_effect`'s phase walk (and the trailing `0f64`;
the afterglow block is commented out in the source). -/
def calcOffsetStep (d : Duration) (time_since_start : ℚ) : Option ℚ :=
  match d.offset with
  | none => some 0
  | some offset =>
    match offset.as_hours with
    | none => none
    | some oh =>
      if time_since_start ≤ oh.midpointCalc then
        some (lerp 1 0 (time_since_start / oh.midpointCalc))
      else
        some 0

/-- Peak step of `calc_effect`'s phase walk. -/
def calcPeakStep (d : Duration) (time_since_start : ℚ) : Option ℚ :=
  match d.peak with
  | none => calcOffsetStep d time_since_start
  | some peak =>
    match peak.as_hours with
    | none => none
    | some ph =>
      if time_since_start ≤ ph.midpointCalc then
        some 1
      else
        calcOffsetStep d (time_since_start - ph.midpointCalc)

/-- Comeup step of `calc_effect`'s phase walk. -/
def calcComeupStep (d : Duration) (time_since_start : ℚ) : Option ℚ :=
  match d.comeup with
  | none => calcPeakStep d time_since_start
  | some comeup =>
    match comeup.as_hours with
    | none => none
    | some ch =>
      if time_since_start ≤ ch.midpointCalc then
        some (lerp 0 1 (time_since_start / ch.midpointCalc))
      else
        calcPeakStep d (time_since_start - ch.midpointCalc)

/-- Onset step of `calc_effect`'s phase walk. -/
def calcOnsetStep (d : Duration) (time_since_start : ℚ) : Option ℚ :=
  match d.onset with
  | none => calcComeupStep d time_since_start
  | some onset =>
    match onset.as_hours with
    | none => none
    | some oh =>
      if time_since_start ≤ oh.midpointCalc then
        some 0
      else
        calcComeupStep d (time_since_start - oh.midpointCalc)

/-- `RouteOfAdministration::calc_effect`: classify first (`none` = the
panic inside `dosage_type`), return 0 on `BelowThreshold`, then walk the
phases onset → comeup → peak → offset. -/
def RouteOfAdministration.calc_effect (self : RouteOfAdministration)
    (dosage : Ingestion) (time_since_start : ℚ) : Option ℚ :=
  match self.dosage_type dosage with
  | none => none
  | some dosage_type =>
    if dosage_type = DosageType.BelowThreshold then
      some 0
    else
      calcOnsetStep self.duration time_since_start

/-- `RouteOfAdministration::cumulative_total`: cumulative sum of the
phase `end`s converted to seconds (absent phases replaced by `ZERO`). -/
def RouteOfAdministration.cumulative_total (self : RouteOfAdministration) :
    Option ℚ := do
  let onsetSecs ← (self.duration.onset.getD DoseTimeRange.ZERO).as_seconds
  let onset_end := onsetSecs.«end»
  let comeupSecs ← (self.duration.comeup.getD DoseTimeRange.ZERO).as_seconds
  let comeup_end := comeupSecs.«end» + onset_end
  let peakSecs ← (self.duration.peak.getD DoseTimeRange.ZERO).as_seconds
  let peak_end := peakSecs.«end» + comeup_end
  let offsetSecs ← (self.duration.offset.getD DoseTimeRange.ZERO).as_seconds
  let offset_end := offsetSecs.«end» + peak_end
  pure offset_end

/-- `RouteOfAdministration::estimate_points`: five vertices whose
x-coordinates are the cumulative sums of the phase midpoints in seconds. -/
def RouteOfAdministration.estimate_points (self : RouteOfAdministration) :
    Option (List (ℚ × ℚ)) := do
  let onsetSecs ← (self.duration.onset.getD DoseTimeRange.ZERO).as_seconds
  let onset := onsetSecs.midpointCalc
  let comeupSecs ← (self.duration.comeup.getD DoseTimeRange.ZERO).as_seconds
  let comeup := comeupSecs.midpointCalc + onset
  let peakSecs ← (self.duration.peak.getD DoseTimeRange.ZERO).as_seconds
  let peak := peakSecs.midpointCalc + comeup
  let offsetSecs ← (self.duration.offset.getD DoseTimeRange.ZERO).as_seconds
  let offset := offsetSecs.midpointCalc + peak
  pure [(0, 0), (onset, 0), (comeup, 1), (peak, 1), (offset, 0)]

/-! ### Derived helpers used to state the verified properties -/

/-- Seconds per time unit (0 for `Invalid`, which never reaches a
conversion). -/
def secsPer : TimeUnits → ℚ
  | TimeUnits.Seconds => 1
  | TimeUnits.Minutes => 60
  | TimeUnits.Hours => 3600
  | TimeUnits.Invalid => 0

/-- Linear factor applied to start/end/midpoint when converting a range
from unit `a` to unit `b`. -/
def timeFactor (a b : TimeUnits) : ℚ :=
  secsPer a / secsPer b

/-- Dispatch of the three pure range conversions of `DoseTimeRange` by
target unit. -/
def asUnits (r : DoseTimeRange) : TimeUnits → Option DoseTimeRange
  | TimeUnits.Hours => r.as_hours
  | TimeUnits.Minutes => r.as_minutes
  | TimeUnits.Seconds => r.as_seconds
  | TimeUnits.Invalid => none

/-- The `end` of an optional phase converted to seconds (`ZERO` for an
absent phase, as in the geometry functions). -/
def optEndSecs (o : Option DoseTimeRange) : ℚ :=
  (o.getD DoseTimeRange.ZERO).«end» * secsPer (o.getD DoseTimeRange.ZERO).units

/-- The recomputed midpoint of an optional phase converted to seconds. -/
def optMidSecs (o : Option DoseTimeRange) : ℚ :=
  (o.getD DoseTimeRange.ZERO).midpointCalc * secsPer (o.getD DoseTimeRange.ZERO).units

/-- The phase (if present) carries a unit the time conversions handle. -/
def phaseUnitsValid : Option DoseTimeRange → Prop
  | none => True
  | some r => r.units ≠ TimeUnits.Invalid

/-- The phase (if present) has nonnegative bounds. -/
def phaseNonneg : Option DoseTimeRange → Prop
  | none => True
  | some r => 0 ≤ r.start ∧ 0 ≤ r.«end»

/-- All four phases consumed by the effect walk satisfy `phaseUnitsValid`. -/
def walkPhasesValid (d : Duration) : Prop :=
  phaseUnitsValid d.onset ∧ phaseUnitsValid d.comeup ∧
    phaseUnitsValid d.peak ∧ phaseUnitsValid d.offset

/-- All four phases consumed by the effect walk satisfy `phaseNonneg`. -/
def walkPhasesNonneg (d : Duration) : Prop :=
  phaseNonneg d.onset ∧ phaseNonneg d.comeup ∧
    phaseNonneg d.peak ∧ phaseNonneg d.offset

/-- The result of an effect evaluation lies in `[0, 1]` (and did not
panic). -/
def inUnitInterval : Option ℚ → Prop
  | none => False
  | some v => 0 ≤ v ∧ v ≤ 1

/-- The six mass-unit pairs `Ingestion::normalise_to_units` actually
converts; every other pair falls through to the silent `_ => return`. -/
def massPairSupported : DoseUnits → DoseUnits → Bool
  | DoseUnits.Mg, DoseUnits.G => true
  | DoseUnits.Ug, DoseUnits.Mg => true
  | DoseUnits.G, DoseUnits.Mg => true
  | DoseUnits.Mg, DoseUnits.Ug => true
  | DoseUnits.Ug, DoseUnits.G => true
  | DoseUnits.G, DoseUnits.Ug => true
  | _, _ => false

/-- The four phase roles of the effect walk (the spec's fixed order). -/
inductive PhaseKind where
  | onset
  | comeup
  | peak
  | offset
deriving DecidableEq, Repr

/-- Modelled from the spec: per-phase contribution of §4.4 step 3 —
onset 0; comeup lerp 0→1; peak 1; offset lerp 1→0, with
`t = remaining / midpoint`. -/
def phaseContrib : PhaseKind → ℚ → ℚ → ℚ
  | PhaseKind.onset, _, _ => 0
  | PhaseKind.comeup, remaining, mid => lerp 0 1 (remaining / mid)
  | PhaseKind.peak, _, _ => 1
  | PhaseKind.offset, remaining, mid => lerp 1 0 (remaining / mid)

/-- Modelled from the spec: §4.4 step 2 — consume the elapsed time
against each listed phase in order; within a phase's midpoint return its
contribution, otherwise subtract the midpoint and continue; past every
phase return 0. -/
def specWalk : List (PhaseKind × ℚ) → ℚ → ℚ
  | [], _ => 0
  | (k, mid) :: rest, remaining =>
    if remaining ≤ mid then phaseContrib k remaining mid
    else specWalk rest (remaining - mid)

/-- The midpoint of a phase range after conversion to hours. -/
def midHours (r : DoseTimeRange) : ℚ :=
  r.midpointCalc * timeFactor r.units TimeUnits.Hours

/-- A defined phase contributes one walk entry; an absent phase is
skipped, consuming no time. -/
def optPhase (k : PhaseKind) : Option DoseTimeRange → List (PhaseKind × ℚ)
  | none => []
  | some r => [(k, midHours r)]

/-- The walk entries of a `Duration`, in the fixed order
onset → comeup → peak → offset. -/
def phaseList (d : Duration) : List (PhaseKind × ℚ) :=
  optPhase PhaseKind.onset d.onset ++ (optPhase PhaseKind.comeup d.comeup ++
    (optPhase PhaseKind.peak d.peak ++ optPhase PhaseKind.offset d.offset))

/-- Modelled from the spec: §4.3 steps 5–7 of the classification cascade
(common, then strong, then below-threshold). -/
def classifyFromCommon (md : DoseMetadata) (amount : ℚ) : DosageType :=
  match md.common with
  | some common =>
    if common.start ≤ amount ∧ amount < common.«end» then DosageType.Common
    else
      match md.strong with
      | some strong =>
        if strong.start ≤ amount ∧ amount < strong.«end» then DosageType.Strong
        else DosageType.BelowThreshold
      | none => DosageType.BelowThreshold
  | none =>
    match md.strong with
    | some strong =>
      if strong.start ≤ amount ∧ amount < strong.«end» then DosageType.Strong
      else DosageType.BelowThreshold
    | none => DosageType.BelowThreshold

/-- Modelled from the spec: §4.3 step 4 (the light band). -/
def classifyFromLight (md : DoseMetadata) (amount : ℚ) : DosageType :=
  match md.light with
  | some light =>
    if light.start ≤ amount ∧ amount < light.«end» then DosageType.Light
    else classifyFromCommon md amount
  | none => classifyFromCommon md amount

/-- Modelled from the spec: §4.3 step 3 (exact equality against the
threshold). -/
def classifyFromThreshold (md : DoseMetadata) (amount : ℚ) : DosageType :=
  match md.threshold with
  | some threshold =>
    if amount = threshold then DosageType.Threshold
    else classifyFromLight md amount
  | none => classifyFromLight md amount

/-- Modelled from the spec: the full §4.3 cascade evaluated at a given
amount — heavy, then threshold, then light, then common, then strong,
else below threshold. -/
def classifySpec (md : DoseMetadata) (amount : ℚ) : DosageType :=
  match md.heavy with
  | some heavy =>
    if heavy ≤ amount then DosageType.Heavy
    else classifyFromThreshold md amount
  | none => classifyFromThreshold md amount

/-! ### Concrete fixtures used by counterexamples and witnesses -/

/-- A substance with no documented routes (the substance field of an
ingestion is irrelevant to `RouteOfAdministration::dosage_type`). -/
def exSubstance : Substance :=
  { name := "X", cross_tolerances := [], routes_of_administration := [],
    uncertain_interactions := [], unsafe_interactions := [], dangerous_interactions := [] }

/-- Oral route, doses in mg, heavy dose 500 mg. -/
def exRoaC1 : RouteOfAdministration :=
  { ty := ROAs.Oral,
    dose_metadata := { units := DoseUnits.Mg, heavy := some 500 },
    duration := {} }

/-- 1000 µg of the substance, taken orally. -/
def exIngC1 : Ingestion := Ingestion.new 1000 DoseUnits.Ug 0 ROAs.Oral exSubstance

/-- The same dose expressed in the route's dose unit: 1 mg. -/
def exIngC1norm : Ingestion := Ingestion.new 1 DoseUnits.Mg 0 ROAs.Oral exSubstance

/-- A route whose only phase is an onset of 0–2 seconds. -/
def exRoaC2 : RouteOfAdministration :=
  { ty := ROAs.Oral,
    dose_metadata := { units := DoseUnits.Mg },
    duration := { onset := some { duration := 0, start := 0, «end» := 2, midpoint := 1,
                                  units := TimeUnits.Seconds } } }

/-- First of two oral profiles. -/
def exRoaA3 : RouteOfAdministration :=
  { ty := ROAs.Oral,
    dose_metadata := { units := DoseUnits.Mg, heavy := some 1 },
    duration := {} }

/-- Second oral profile, distinguishable from the first. -/
def exRoaB3 : RouteOfAdministration :=
  { ty := ROAs.Oral,
    dose_metadata := { units := DoseUnits.Mg, heavy := some 2 },
    duration := {} }

/-- A substance documenting the oral route twice. -/
def exSub3 : Substance :=
  { exSubstance with routes_of_administration := [exRoaA3, exRoaB3] }

/-- An oral ingestion of that substance. -/
def exIng3 : Ingestion := Ingestion.new 0 DoseUnits.Mg 0 ROAs.Oral exSub3

/-- 7 ml of the substance: no conversion from ml to a mass unit exists. -/
def exIngMl : Ingestion := Ingestion.new 7 DoseUnits.Ml 0 ROAs.Oral exSubstance

/-- A phase range tagged with the `Invalid` time unit. -/
def exInvalidRange : DoseTimeRange :=
  { duration := 0, start := 1, «end» := 3, midpoint := 2, units := TimeUnits.Invalid }

/-- 7 g of the substance, for the g → ml direction. -/
def exIngG : Ingestion := Ingestion.new 7 DoseUnits.G 0 ROAs.Oral exSubstance

/-- Route with onset 0–2 h and comeup 0–2 h, every dose heavy. -/
def exRoaC5 : RouteOfAdministration :=
  { ty := ROAs.Oral,
    dose_metadata := { units := DoseUnits.Mg, heavy := some 0 },
    duration := { onset := some { duration := 0, start := 0, «end» := 2, midpoint := 1,
                                  units := TimeUnits.Hours },
                  comeup := some { duration := 0, start := 0, «end» := 2, midpoint := 1,
                                   units := TimeUnits.Hours } } }

/-- 5 mg ingestion, classified Heavy by `exRoaC5`. -/
def exIngC5 : Ingestion := Ingestion.new 5 DoseUnits.Mg 0 ROAs.Oral exSubstance

/-- Heavy 500 mg and light band [5, 15) mg. -/
def exRoaC6 : RouteOfAdministration :=
  { ty := ROAs.Oral,
    dose_metadata := { units := DoseUnits.Mg, heavy := some 500,
                       light := some { start := 5, «end» := 15 } },
    duration := {} }

/-- 10000 µg, i.e. 10 mg once converted. -/
def exIngC6 : Ingestion := Ingestion.new 10000 DoseUnits.Ug 0 ROAs.Oral exSubstance

/-- The same dose expressed in mg. -/
def exIngC6norm : Ingestion := Ingestion.new 10 DoseUnits.Mg 0 ROAs.Oral exSubstance

/-- Route with only a comeup of 0–2 h, every dose heavy. -/
def exRoaC7 : RouteOfAdministration :=
  { ty := ROAs.Oral,
    dose_metadata := { units := DoseUnits.Mg, heavy := some 0 },
    duration := { comeup := some { duration := 0, start := 0, «end» := 2, midpoint := 1,
                                   units := TimeUnits.Hours } } }

/-- 5 mg ingestion, classified Heavy by `exRoaC7`. -/
def exIngC7 : Ingestion := Ingestion.new 5 DoseUnits.Mg 0 ROAs.Oral exSubstance

/-- No dose bands at all (everything is below threshold), and a phase
whose unit is `Invalid` — the walk would panic if it ran. -/
def exRoaC8 : RouteOfAdministration :=
  { ty := ROAs.Oral,
    dose_metadata := { units := DoseUnits.Mg },
    duration := { comeup := some exInvalidRange } }

/-- 5 mg ingestion of the band-less route. -/
def exIngC8 : Ingestion := Ingestion.new 5 DoseUnits.Mg 0 ROAs.Oral exSubstance

/-- A 30–90 minute phase range. -/
def exRangeC9 : DoseTimeRange :=
  { duration := 0, start := 30, «end» := 90, midpoint := 60, units := TimeUnits.Minutes }

/-- A substance documenting exactly the oral route. -/
def exSub10 : Substance :=
  { exSubstance with routes_of_administration := [exRoaA3] }

/-- An oral ingestion of that substance. -/
def exIng10 : Ingestion := Ingestion.new 1 DoseUnits.Mg 0 ROAs.Oral exSub10

/-! ### Conversion lemmas -/

/-- Each pure range conversion rescales start, end and the stored
midpoint by the single linear factor `timeFactor` and retags the unit. -/
lemma asUnits_eq (r : DoseTimeRange) (u : TimeUnits)
    (hr : r.units ≠ TimeUnits.Invalid) (hu : u ≠ TimeUnits.Invalid) :
    asUnits r u = some { duration := r.duration,
                         start := r.start * timeFactor r.units u,
                         «end» := r.«end» * timeFactor r.units u,
                         midpoint := r.midpoint * timeFactor r.units u,
                         units := u } := by
  rcases r with ⟨d, s, e, m, ru⟩
  cases ru <;> cases u <;>
    simp_all [asUnits, DoseTimeRange.as_hours, DoseTimeRange.as_minutes,
      DoseTimeRange.as_seconds, timeFactor, secsPer] <;>
    norm_num <;> simp [div_eq_mul_inv]

/-- C9: for ranges in seconds/minutes/hours, each of `as_hours`,
`as_minutes`, `as_seconds` rescales start, end and midpoint by one linear
factor and sets the new unit; converting a range to its own unit returns
it unchanged; and converting to a unit and back reproduces the original
range exactly (rationals model the floating-point values, so "up to
rounding" is exact here). -/
theorem c9_time_conversion (r : DoseTimeRange) (u : TimeUnits)
    (hr : r.units ≠ TimeUnits.Invalid) (hu : u ≠ TimeUnits.Invalid) :
    asUnits r u = some { duration := r.duration,
                         start := r.start * timeFactor r.units u,
                         «end» := r.«end» * timeFactor r.units u,
                         midpoint := r.midpoint * timeFactor r.units u,
                         units := u } ∧
      asUnits r r.units = some r ∧
      (asUnits r u).bind (fun r2 => asUnits r2 r.units) = some r := by
  refine ⟨asUnits_eq r u hr hu, ?_, ?_⟩
  · rw [asUnits_eq r r.units hr hr]
    rcases r with ⟨d, s, e, m, ru⟩
    cases ru <;> simp_all [timeFactor, secsPer]
  · rw [asUnits_eq r u hr hu, Option.bind]
    have h2 := asUnits_eq { duration := r.duration,
                            start := r.start * timeFactor r.units u,
                            «end» := r.«end» * timeFactor r.units u,
                            midpoint := r.midpoint * timeFactor r.units u,
                            units := u } r.units hu hr
    rw [h2]
    rcases r with ⟨d, s, e, m, ru⟩
    cases ru <;> cases u <;>
      simp_all [timeFactor, secsPer] <;> norm_num <;> simp

/-- Witness for C9 at a concrete 30–90 minute range converted to hours. -/
theorem c9_witness :
    exRangeC9.units ≠ TimeUnits.Invalid ∧
    asUnits exRangeC9 TimeUnits.Hours =
      some { duration := exRangeC9.duration,
             start := exRangeC9.start * timeFactor exRangeC9.units TimeUnits.Hours,
             «end» := exRangeC9.«end» * timeFactor exRangeC9.units TimeUnits.Hours,
             midpoint := exRangeC9.midpoint * timeFactor exRangeC9.units TimeUnits.Hours,
             units := TimeUnits.Hours } ∧
    asUnits exRangeC9 exRangeC9.units = some exRangeC9 ∧
    (asUnits exRangeC9 TimeUnits.Hours).bind
      (fun r2 => asUnits r2 exRangeC9.units) = some exRangeC9 :=
  ⟨by decide,
   c9_time_conversion exRangeC9 TimeUnits.Hours (by decide) (by decide)⟩

/-! ### Cumulative geometry -/

/-- Converting an optional phase (with `ZERO` substituted when absent) to
seconds succeeds and yields the `end` and recomputed midpoint predicted
by `optEndSecs` / `optMidSecs`. -/
lemma getD_as_seconds (o : Option DoseTimeRange) (h : phaseUnitsValid o) :
    ∃ s, (o.getD DoseTimeRange.ZERO).as_seconds = some s ∧
      s.«end» = optEndSecs o ∧ s.midpointCalc = optMidSecs o := by
  cases o with
  | none =>
    refine ⟨{ duration := 0, start := 0, «end» := 0, midpoint := 0,
              units := TimeUnits.Seconds }, ?_, ?_, ?_⟩ <;>
      simp [DoseTimeRange.ZERO, DoseTimeRange.as_seconds, optEndSecs, optMidSecs,
        DoseTimeRange.midpointCalc, secsPer]
  | some r =>
    rcases r with ⟨d, s, e, m, ru⟩
    cases ru <;>
      simp_all [phaseUnitsValid, DoseTimeRange.as_seconds, optEndSecs, optMidSecs,
        DoseTimeRange.midpointCalc, secsPer] <;>
      ring

/-- C2 (amended): `cumulative_total()` accumulates the phase `end`s
converted to seconds, while the fifth (final) vertex of
`estimate_points()` sits at the accumulated phase midpoints in seconds;
the claimed equality between the two holds only when those sums agree
(e.g. zero-width phases), not in general. -/
theorem c2_geometry (roa : RouteOfAdministration)
    (h1 : phaseUnitsValid roa.duration.onset) (h2 : phaseUnitsValid roa.duration.comeup)
    (h3 : phaseUnitsValid roa.duration.peak) (h4 : phaseUnitsValid roa.duration.offset) :
    roa.cumulative_total =
      some (optEndSecs roa.duration.offset + (optEndSecs roa.duration.peak +
        (optEndSecs roa.duration.comeup + optEndSecs roa.duration.onset))) ∧
    roa.estimate_points =
      some [(0, 0),
            (optMidSecs roa.duration.onset, 0),
            (optMidSecs roa.duration.comeup + optMidSecs roa.duration.onset, 1),
            (optMidSecs roa.duration.peak +
              (optMidSecs roa.duration.comeup + optMidSecs roa.duration.onset), 1),
            (optMidSecs roa.duration.offset + (optMidSecs roa.duration.peak +
              (optMidSecs roa.duration.comeup + optMidSecs roa.duration.onset)), 0)] := by
  obtain ⟨s1, hs1, he1, hm1⟩ := getD_as_seconds roa.duration.onset h1
  obtain ⟨s2, hs2, he2, hm2⟩ := getD_as_seconds roa.duration.comeup h2
  obtain ⟨s3, hs3, he3, hm3⟩ := getD_as_seconds roa.duration.peak h3
  obtain ⟨s4, hs4, he4, hm4⟩ := getD_as_seconds roa.duration.offset h4
  constructor
  · simp [RouteOfAdministration.cumulative_total, hs1, hs2, hs3, hs4,
      he1, he2, he3, he4]
  · simp [RouteOfAdministration.estimate_points, hs1, hs2, hs3, hs4,
      hm1, hm2, hm3, hm4]

/-- Witness for the amended C2 at the concrete onset-only route. -/
theorem c2_geometry_witness :
    exRoaC2.cumulative_total =
      some (optEndSecs exRoaC2.duration.offset + (optEndSecs exRoaC2.duration.peak +
        (optEndSecs exRoaC2.duration.comeup + optEndSecs exRoaC2.duration.onset))) ∧
    exRoaC2.estimate_points =
      some [(0, 0),
            (optMidSecs exRoaC2.duration.onset, 0),
            (optMidSecs exRoaC2.duration.comeup + optMidSecs exRoaC2.duration.onset, 1),
            (optMidSecs exRoaC2.duration.peak +
              (optMidSecs exRoaC2.duration.comeup + optMidSecs exRoaC2.duration.onset), 1),
            (optMidSecs exRoaC2.duration.offset + (optMidSecs exRoaC2.duration.peak +
              (optMidSecs exRoaC2.duration.comeup + optMidSecs exRoaC2.duration.onset)), 0)] :=
  c2_geometry exRoaC2 (by simp [exRoaC2, phaseUnitsValid])
    (by simp [exRoaC2, phaseUnitsValid]) (by simp [exRoaC2, phaseUnitsValid])
    (by simp [exRoaC2, phaseUnitsValid])

/-- Counterexample to C2 as stated: a route whose only phase is an onset
of 0–2 seconds has `cumulative_total() = 2` (sum of ends) but final
vertex x-coordinate `1` (sum of midpoints). -/
theorem c2_counterexample :
    exRoaC2.cumulative_total = some 2 ∧
    exRoaC2.estimate_points = some [(0, 0), (1, 0), (1, 1), (1, 1), (1, 0)] ∧
    (2 : ℚ) ≠ 1 := by
  refine ⟨?_, ?_, by norm_num⟩
  · norm_num [RouteOfAdministration.cumulative_total, exRoaC2,
      DoseTimeRange.as_seconds, DoseTimeRange.ZERO]
  · norm_num [RouteOfAdministration.estimate_points, exRoaC2,
      DoseTimeRange.as_seconds, DoseTimeRange.ZERO, DoseTimeRange.midpointCalc]

/-! ### Classification: discarded normalisation (C1, C6) -/

/-- C1 (code bug): classification does NOT convert the ingestion amount
into the profile dose unit — `dosage_type` evaluates
`normalise_as_units` and discards the result, comparing the raw amount.
1000 µg against an mg-denominated heavy dose of 500 is classified Heavy,
while the same dose expressed in the dose unit (1 mg) is classified
BelowThreshold; the third conjunct checks 1000 µg does convert to 1 mg. -/
theorem c1_classification_skips_normalisation :
    exRoaC1.dosage_type exIngC1 = some DosageType.Heavy ∧
    exRoaC1.dosage_type exIngC1norm = some DosageType.BelowThreshold ∧
    (exIngC1.normalise_as_units exRoaC1.dose_metadata.units).map (fun i => i.amount) =
      some exIngC1norm.amount := by
  refine ⟨by decide, by decide, ?_⟩
  norm_num [exIngC1, exIngC1norm, Ingestion.new, Ingestion.normalise_as_units, exRoaC1]

/-! ### Route lookup (C3, C10) -/

/-- Counterexample to C3: with two oral profiles in the list, lookup
returns the FIRST one, not the last. -/
theorem c3_counterexample :
    exSub3.routes_of_administration = [exRoaA3, exRoaB3] ∧
    exRoaA3.ty = ROAs.Oral ∧ exRoaB3.ty = ROAs.Oral ∧
    exSub3.route_of_administration ROAs.Oral = some exRoaA3 ∧
    exRoaA3 ≠ exRoaB3 :=
  ⟨rfl, rfl, rfl, by decide, by decide⟩

/-- C3 (amended): when several profiles share the queried `RouteKind`,
`Substance::route_of_administration` (and the lookup inside
`Substance::dosage_type`) selects the FIRST matching profile in the
list. -/
theorem c3_first_match (s : Substance) (kind : ROAs)
    (l1 l2 : List RouteOfAdministration) (r : RouteOfAdministration)
    (hsplit : s.routes_of_administration = l1 ++ r :: l2)
    (hr : r.ty = kind)
    (hbefore : ∀ r2 ∈ l1, r2.ty ≠ kind) :
    s.route_of_administration kind = some r ∧
    ∀ ing : Ingestion, ing.route_of_administration = kind →
      s.dosage_type ing = some (r.dosage_type ing) := by
  have hfind : s.routes_of_administration.find? (fun i => decide (i.ty = kind)) = some r := by
    rw [hsplit, List.find?_append]
    have h1 : l1.find? (fun i => decide (i.ty = kind)) = none := by
      rw [List.find?_eq_none]
      intro x hx
      simp [hbefore x hx]
    rw [h1]
    simp [hr]
  constructor
  · exact hfind
  · intro ing hing
    simp only [Substance.dosage_type, hing, hfind, Option.map_some']

/-- Witness for the amended C3 at the two-oral-profile substance. -/
theorem c3_first_match_witness :
    exSub3.route_of_administration ROAs.Oral = some exRoaA3 ∧
    exSub3.dosage_type exIng3 = some (exRoaA3.dosage_type exIng3) := by
  have h := c3_first_match exSub3 ROAs.Oral [] [exRoaB3] exRoaA3 rfl rfl (by simp)
  exact ⟨h.1, h.2 exIng3 rfl⟩

/-! ### Unsupported unit conversions (C4) -/

/-- Counterexample to C4: converting a 7 ml ingestion to mg leaves it
entirely unchanged (silent fall-through), and converting an
Invalid-united phase range to hours is a fatal panic (`none`), not a
surfaced `UnsupportedUnitConversion` error — no such error value exists
anywhere in the code. -/
theorem c4_counterexample :
    massPairSupported exIngMl.units DoseUnits.Mg = false ∧
    exIngMl.normalise_to_units DoseUnits.Mg = exIngMl ∧
    exInvalidRange.as_hours = none :=
  ⟨by decide, by decide, by decide⟩

/-- C4 (amended): `Ingestion::normalise_to_units` on any pair outside the
six supported mass conversions silently returns the ingestion unchanged,
and each pure time conversion on an `Invalid` unit is a fatal panic
(modelled `none`); neither path produces an error value. -/
theorem c4_silent_conversion :
    (∀ (ing : Ingestion) (u : DoseUnits), massPairSupported ing.units u = false →
      ing.normalise_to_units u = ing) ∧
    (∀ r : DoseTimeRange, r.units = TimeUnits.Invalid →
      r.as_hours = none ∧ r.as_minutes = none ∧ r.as_seconds = none) := by
  constructor
  · intro ing u h
    rcases ing with ⟨iu, a, t, ro, s⟩
    cases iu <;> cases u <;>
      simp_all [massPairSupported, Ingestion.normalise_to_units]
  · intro r h
    rcases r with ⟨d, s, e, m, ru⟩
    cases ru <;>
      simp_all [DoseTimeRange.as_hours, DoseTimeRange.as_minutes, DoseTimeRange.as_seconds]

/-- Witness for the amended C4: g → ml silently no-ops; `as_minutes` on
an Invalid range panics. -/
theorem c4_silent_conversion_witness :
    massPairSupported exIngG.units DoseUnits.Ml = false ∧
    exIngG.normalise_to_units DoseUnits.Ml = exIngG ∧
    exInvalidRange.units = TimeUnits.Invalid ∧
    exInvalidRange.as_minutes = none :=
  ⟨by decide,
   c4_silent_conversion.1 exIngG DoseUnits.Ml (by decide),
   by decide,
   (c4_silent_conversion.2 exInvalidRange (by decide)).2.1⟩

/-! ### Classification cascade (C6) -/

/-- The inlined condition chain of `dosage_type` agrees with the spec's
§4.3 cascade evaluated at the same amount. -/
lemma boolChain_eq_classifySpec (md : DoseMetadata) (amount : ℚ) :
    (if md.heavy.any (fun heavy => decide (heavy ≤ amount)) then DosageType.Heavy
     else if md.threshold.any (fun threshold => decide (amount = threshold)) then
       DosageType.Threshold
     else if md.light.any (fun light => light.containsQ amount) then DosageType.Light
     else if md.common.any (fun common => common.containsQ amount) then DosageType.Common
     else if md.strong.any (fun strong => strong.containsQ amount) then DosageType.Strong
     else DosageType.BelowThreshold) = classifySpec md amount := by
  rcases md with ⟨mu, mth, mh, mc, ml, ms⟩
  cases mh <;> cases mth <;> cases ml <;> cases mc <;> cases ms <;>
    simp [classifySpec, classifyFromThreshold, classifyFromLight, classifyFromCommon,
      DoseRange.containsQ]

/-- When the (discarded) normalisation call does not panic,
`dosage_type` returns exactly the spec cascade applied to the RAW
ingestion amount. -/
lemma dosage_type_eq_classifySpec (roa : RouteOfAdministration) (ing : Ingestion)
    (h : (ing.normalise_as_units roa.dose_metadata.units).isSome) :
    roa.dosage_type ing = some (classifySpec roa.dose_metadata ing.amount) := by
  obtain ⟨x, hx⟩ := Option.isSome_iff_exists.mp h
  unfold RouteOfAdministration.dosage_type
  rw [hx, Option.map_some']
  rw [boolChain_eq_classifySpec]

/-- Counterexample to C6 as stated: the priority order is applied to the
raw amount, not the normalized one: a 10000 µg dose on a route with
heavy = 500 mg and light = [5, 15) mg is classified Heavy
(10000 ≥ 500 compared raw), while the normalized amount 10 mg falls in
the light band. -/
theorem c6_counterexample :
    exRoaC6.dosage_type exIngC6 = some DosageType.Heavy ∧
    exRoaC6.dosage_type exIngC6norm = some DosageType.Light ∧
    (exIngC6.normalise_as_units exRoaC6.dose_metadata.units).map (fun i => i.amount) =
      some exIngC6norm.amount ∧
    DosageType.Heavy ≠ DosageType.Light := by
  refine ⟨by decide, by decide, ?_, by decide⟩
  norm_num [exIngC6, exIngC6norm, Ingestion.new, Ingestion.normalise_as_units, exRoaC6]

/-- C6 (amended): classification follows the fixed priority order heavy ≥,
threshold =, then the half-open bands light, common, strong, else
BelowThreshold — evaluated on the amount in the ingestion's own unit
(the normalisation result is discarded).  In particular an amount
satisfying both heavy and a band is Heavy, and an amount equal to
threshold (and below heavy) is Threshold even inside the light band. -/
theorem c6_priority_on_raw_amount (roa : RouteOfAdministration) (ing : Ingestion)
    (h : (ing.normalise_as_units roa.dose_metadata.units).isSome) :
    roa.dosage_type ing = some (classifySpec roa.dose_metadata ing.amount) ∧
    (∀ heavy ∈ roa.dose_metadata.heavy, heavy ≤ ing.amount →
      roa.dosage_type ing = some DosageType.Heavy) ∧
    (∀ threshold ∈ roa.dose_metadata.threshold, ing.amount = threshold →
      (∀ heavy ∈ roa.dose_metadata.heavy, ing.amount < heavy) →
      roa.dosage_type ing = some DosageType.Threshold) := by
  refine ⟨dosage_type_eq_classifySpec roa ing h, ?_, ?_⟩
  · intro heavy hh hle
    rw [Option.mem_def] at hh
    rw [dosage_type_eq_classifySpec roa ing h]
    simp [classifySpec, hh, hle]
  · intro threshold hth heq hlt
    rw [Option.mem_def] at hth
    rw [dosage_type_eq_classifySpec roa ing h]
    rcases hh : roa.dose_metadata.heavy with _ | heavy
    · simp [classifySpec, hh, classifyFromThreshold, hth, heq]
    · have hgt := hlt heavy (by rw [Option.mem_def, hh])
      have hgt2 : threshold < heavy := heq ▸ hgt
      simp [classifySpec, hh, classifyFromThreshold, hth, heq, not_le.mpr hgt, hgt2]

/-- Witness for the amended C6: 10 mg on the heavy-500/light-[5,15) mg
route classifies Light via the cascade on the raw amount. -/
theorem c6_priority_witness :
    (exIngC6norm.normalise_as_units exRoaC6.dose_metadata.units).isSome ∧
    exRoaC6.dosage_type exIngC6norm =
      some (classifySpec exRoaC6.dose_metadata exIngC6norm.amount) ∧
    classifySpec exRoaC6.dose_metadata exIngC6norm.amount = DosageType.Light :=
  ⟨by decide,
   (c6_priority_on_raw_amount exRoaC6 exIngC6norm (by decide)).1,
   by decide⟩

/-! ### Below-threshold short-circuit (C8) -/

/-- C8: an ingestion classified BelowThreshold yields effect 0 at every
elapsed time — the phase walk never runs. -/
theorem c8_below_threshold_zero (roa : RouteOfAdministration) (ing : Ingestion) (t : ℚ)
    (h : roa.dosage_type ing = some DosageType.BelowThreshold) :
    roa.calc_effect ing t = some 0 := by
  unfold RouteOfAdministration.calc_effect
  rw [h]
  simp

/-- Witness for C8: a route with no dose bands classifies 5 mg as
BelowThreshold; its comeup phase carries an Invalid unit whose
conversion would panic, yet the effect is still 0 — proof that no phase
walk occurs. -/
theorem c8_below_threshold_zero_witness :
    exRoaC8.dosage_type exIngC8 = some DosageType.BelowThreshold ∧
    exRoaC8.duration.comeup = some exInvalidRange ∧
    exRoaC8.calc_effect exIngC8 3 = some 0 :=
  ⟨by decide, rfl, c8_below_threshold_zero exRoaC8 exIngC8 3 (by decide)⟩

/-! ### The effect phase walk (C5, C7) -/

/-- Converting a valid phase range to hours succeeds, and its recomputed
midpoint is `midHours`. -/
lemma as_hours_midpoint (r : DoseTimeRange) (h : r.units ≠ TimeUnits.Invalid) :
    ∃ rh, r.as_hours = some rh ∧ rh.midpointCalc = midHours r := by
  rcases r with ⟨d, s, e, m, ru⟩
  cases ru <;>
    simp_all [DoseTimeRange.as_hours, DoseTimeRange.midpointCalc, midHours,
      timeFactor, secsPer] <;>
    ring

/-- The offset step of the walk agrees with the spec walk on the
remaining phase list. -/
lemma calcOffsetStep_spec (d : Duration) (t : ℚ) (h : phaseUnitsValid d.offset) :
    calcOffsetStep d t = some (specWalk (optPhase PhaseKind.offset d.offset) t) := by
  cases ho : d.offset with
  | none => simp [calcOffsetStep, ho, optPhase, specWalk]
  | some r =>
    have hv : r.units ≠ TimeUnits.Invalid := by rw [ho] at h; exact h
    obtain ⟨rh, hrh, hmid⟩ := as_hours_midpoint r hv
    simp only [calcOffsetStep, ho, hrh, hmid, optPhase, specWalk]
    split_ifs <;> simp [phaseContrib, specWalk]

/-- The peak step of the walk agrees with the spec walk. -/
lemma calcPeakStep_spec (d : Duration) (t : ℚ) (hp : phaseUnitsValid d.peak)
    (ho : phaseUnitsValid d.offset) :
    calcPeakStep d t =
      some (specWalk (optPhase PhaseKind.peak d.peak ++
        optPhase PhaseKind.offset d.offset) t) := by
  cases hpk : d.peak with
  | none =>
    simp only [calcPeakStep, hpk, optPhase, List.nil_append]
    exact calcOffsetStep_spec d t ho
  | some r =>
    have hv : r.units ≠ TimeUnits.Invalid := by rw [hpk] at hp; exact hp
    obtain ⟨rh, hrh, hmid⟩ := as_hours_midpoint r hv
    simp only [calcPeakStep, hpk, hrh, hmid, optPhase, List.cons_append,
      List.nil_append, specWalk]
    split_ifs with hcond
    · simp [phaseContrib]
    · exact calcOffsetStep_spec d (t - midHours r) ho

/-- The comeup step of the walk agrees with the spec walk. -/
lemma calcComeupStep_spec (d : Duration) (t : ℚ) (hc : phaseUnitsValid d.comeup)
    (hp : phaseUnitsValid d.peak) (ho : phaseUnitsValid d.offset) :
    calcComeupStep d t =
      some (specWalk (optPhase PhaseKind.comeup d.comeup ++
        (optPhase PhaseKind.peak d.peak ++ optPhase PhaseKind.offset d.offset)) t) := by
  cases hcu : d.comeup with
  | none =>
    simp only [calcComeupStep, hcu, optPhase, List.nil_append]
    exact calcPeakStep_spec d t hp ho
  | some r =>
    have hv : r.units ≠ TimeUnits.Invalid := by rw [hcu] at hc; exact hc
    obtain ⟨rh, hrh, hmid⟩ := as_hours_midpoint r hv
    simp only [calcComeupStep, hcu, hrh, hmid, optPhase, List.cons_append,
      List.nil_append, specWalk]
    split_ifs with hcond
    · simp [phaseContrib]
    · exact calcPeakStep_spec d (t - midHours r) hp ho

/-- The onset step of the walk agrees with the spec walk. -/
lemma calcOnsetStep_spec (d : Duration) (t : ℚ) (hon : phaseUnitsValid d.onset)
    (hc : phaseUnitsValid d.comeup) (hp : phaseUnitsValid d.peak)
    (ho : phaseUnitsValid d.offset) :
    calcOnsetStep d t =
      some (specWalk (optPhase PhaseKind.onset d.onset ++
        (optPhase PhaseKind.comeup d.comeup ++ (optPhase PhaseKind.peak d.peak ++
          optPhase PhaseKind.offset d.offset))) t) := by
  cases hos : d.onset with
  | none =>
    simp only [calcOnsetStep, hos, optPhase, List.nil_append]
    exact calcComeupStep_spec d t hc hp ho
  | some r =>
    have hv : r.units ≠ TimeUnits.Invalid := by rw [hos] at hon; exact hon
    obtain ⟨rh, hrh, hmid⟩ := as_hours_midpoint r hv
    simp only [calcOnsetStep, hos, hrh, hmid, optPhase, List.cons_append,
      List.nil_append, specWalk]
    split_ifs with hcond
    · simp [phaseContrib]
    · exact calcComeupStep_spec d (t - midHours r) hc hp ho

/-- C5: for a non-BelowThreshold ingestion (and phases whose units the
conversions handle), `calc_effect` equals the spec's phase walk: phases
consumed in the fixed order onset → comeup → peak → offset, each phase's
length its midpoint converted to hours, the per-phase contributions as
written in the spec, absent phases skipped, 0 past the final phase. -/
theorem c5_phase_walk (roa : RouteOfAdministration) (ing : Ingestion) (t : ℚ)
    (dt : DosageType) (hdt : roa.dosage_type ing = some dt)
    (hne : dt ≠ DosageType.BelowThreshold)
    (h1 : phaseUnitsValid roa.duration.onset) (h2 : phaseUnitsValid roa.duration.comeup)
    (h3 : phaseUnitsValid roa.duration.peak) (h4 : phaseUnitsValid roa.duration.offset) :
    roa.calc_effect ing t = some (specWalk (phaseList roa.duration) t) := by
  unfold RouteOfAdministration.calc_effect
  simp only [hdt]
  rw [if_neg hne]
  unfold phaseList
  exact calcOnsetStep_spec roa.duration t h1 h2 h3 h4

/-- Witness for C5: onset 0–2 h and comeup 0–2 h, elapsed 3 h. -/
theorem c5_phase_walk_witness :
    exRoaC5.dosage_type exIngC5 = some DosageType.Heavy ∧
    exRoaC5.calc_effect exIngC5 3 = some (specWalk (phaseList exRoaC5.duration) 3) :=
  ⟨by decide,
   c5_phase_walk exRoaC5 exIngC5 3 DosageType.Heavy (by decide) (by decide)
     (by simp [exRoaC5, phaseUnitsValid]) (by simp [exRoaC5, phaseUnitsValid])
     (by simp [exRoaC5, phaseUnitsValid]) (by simp [exRoaC5, phaseUnitsValid])⟩

/-- With `0 ≤ t ≤ m`, the ratio `t / m` lies in `[0, 1]` (also in the
degenerate `m = 0` case, where rational division yields 0). -/
lemma div_unit_bounds (t m : ℚ) (h0 : 0 ≤ t) (h1 : t ≤ m) : 0 ≤ t / m ∧ t / m ≤ 1 := by
  rcases eq_or_lt_of_le (h0.trans h1) with hm | hm
  · rw [← hm, div_zero]
    norm_num
  · exact ⟨div_nonneg h0 hm.le, (div_le_one hm).mpr h1⟩

/-- A phase with nonnegative bounds has a nonnegative midpoint in hours. -/
lemma midHours_nonneg (r : DoseTimeRange) (hs : 0 ≤ r.start) (he : 0 ≤ r.«end») :
    0 ≤ midHours r := by
  have h1 : 0 ≤ (r.start + r.«end») / 2 := by positivity
  have h2 : 0 ≤ timeFactor r.units TimeUnits.Hours := by
    unfold timeFactor
    cases r.units <;> norm_num [secsPer]
  unfold midHours DoseTimeRange.midpointCalc
  exact mul_nonneg h1 h2

/-- Offset-step bound: result defined and within `[0, 1]`. -/
lemma calcOffsetStep_bounds (d : Duration) (t : ℚ) (ht : 0 ≤ t)
    (hu : phaseUnitsValid d.offset) (hn : phaseNonneg d.offset) :
    inUnitInterval (calcOffsetStep d t) := by
  cases ho : d.offset with
  | none => simp [calcOffsetStep, ho, inUnitInterval]
  | some r =>
    have hv : r.units ≠ TimeUnits.Invalid := by rw [ho] at hu; exact hu
    have hnn : 0 ≤ r.start ∧ 0 ≤ r.«end» := by rw [ho] at hn; exact hn
    obtain ⟨rh, hrh, hmid⟩ := as_hours_midpoint r hv
    simp only [calcOffsetStep, ho, hrh, hmid]
    split_ifs with hc
    · obtain ⟨ha, hb⟩ := div_unit_bounds t (midHours r) ht hc
      simp only [inUnitInterval, lerp]
      constructor <;> nlinarith
    · simp [inUnitInterval]

/-- Peak-step bound. -/
lemma calcPeakStep_bounds (d : Duration) (t : ℚ) (ht : 0 ≤ t)
    (hu1 : phaseUnitsValid d.peak) (hn1 : phaseNonneg d.peak)
    (hu2 : phaseUnitsValid d.offset) (hn2 : phaseNonneg d.offset) :
    inUnitInterval (calcPeakStep d t) := by
  cases hpk : d.peak with
  | none =>
    simp only [calcPeakStep, hpk]
    exact calcOffsetStep_bounds d t ht hu2 hn2
  | some r =>
    have hv : r.units ≠ TimeUnits.Invalid := by rw [hpk] at hu1; exact hu1
    have hnn : 0 ≤ r.start ∧ 0 ≤ r.«end» := by rw [hpk] at hn1; exact hn1
    obtain ⟨rh, hrh, hmid⟩ := as_hours_midpoint r hv
    have hm0 : 0 ≤ midHours r := midHours_nonneg r hnn.1 hnn.2
    simp only [calcPeakStep, hpk, hrh, hmid]
    split_ifs with hc
    · simp [inUnitInterval]
    · exact calcOffsetStep_bounds d (t - midHours r) (by linarith [not_le.mp hc]) hu2 hn2

/-- Comeup-step bound. -/
lemma calcComeupStep_bounds (d : Duration) (t : ℚ) (ht : 0 ≤ t)
    (hu1 : phaseUnitsValid d.comeup) (hn1 : phaseNonneg d.comeup)
    (hu2 : phaseUnitsValid d.peak) (hn2 : phaseNonneg d.peak)
    (hu3 : phaseUnitsValid d.offset) (hn3 : phaseNonneg d.offset) :
    inUnitInterval (calcComeupStep d t) := by
  cases hcu : d.comeup with
  | none =>
    simp only [calcComeupStep, hcu]
    exact calcPeakStep_bounds d t ht hu2 hn2 hu3 hn3
  | some r =>
    have hv : r.units ≠ TimeUnits.Invalid := by rw [hcu] at hu1; exact hu1
    have hnn : 0 ≤ r.start ∧ 0 ≤ r.«end» := by rw [hcu] at hn1; exact hn1
    obtain ⟨rh, hrh, hmid⟩ := as_hours_midpoint r hv
    have hm0 : 0 ≤ midHours r := midHours_nonneg r hnn.1 hnn.2
    simp only [calcComeupStep, hcu, hrh, hmid]
    split_ifs with hc
    · obtain ⟨ha, hb⟩ := div_unit_bounds t (midHours r) ht hc
      simp only [inUnitInterval, lerp]
      constructor <;> nlinarith
    · exact calcPeakStep_bounds d (t - midHours r) (by linarith [not_le.mp hc]) hu2 hn2 hu3 hn3

/-- Onset-step bound. -/
lemma calcOnsetStep_bounds (d : Duration) (t : ℚ) (ht : 0 ≤ t)
    (hu0 : phaseUnitsValid d.onset) (hn0 : phaseNonneg d.onset)
    (hu1 : phaseUnitsValid d.comeup) (hn1 : phaseNonneg d.comeup)
    (hu2 : phaseUnitsValid d.peak) (hn2 : phaseNonneg d.peak)
    (hu3 : phaseUnitsValid d.offset) (hn3 : phaseNonneg d.offset) :
    inUnitInterval (calcOnsetStep d t) := by
  cases hos : d.onset with
  | none =>
    simp only [calcOnsetStep, hos]
    exact calcComeupStep_bounds d t ht hu1 hn1 hu2 hn2 hu3 hn3
  | some r =>
    have hv : r.units ≠ TimeUnits.Invalid := by rw [hos] at hu0; exact hu0
    have hnn : 0 ≤ r.start ∧ 0 ≤ r.«end» := by rw [hos] at hn0; exact hn0
    obtain ⟨rh, hrh, hmid⟩ := as_hours_midpoint r hv
    have hm0 : 0 ≤ midHours r := midHours_nonneg r hnn.1 hnn.2
    simp only [calcOnsetStep, hos, hrh, hmid]
    split_ifs with hc
    · simp [inUnitInterval]
    · exact calcComeupStep_bounds d (t - midHours r) (by linarith [not_le.mp hc])
        hu1 hn1 hu2 hn2 hu3 hn3

/-- Counterexample to C7 as stated: with a comeup of 0–2 h (and no
onset), a Heavy ingestion evaluated at elapsed −1 h yields intensity −1,
outside `[0, 1]`. -/
theorem c7_counterexample :
    exRoaC7.calc_effect exIngC7 (-1) = some (-1) ∧
    ¬ inUnitInterval (exRoaC7.calc_effect exIngC7 (-1)) := by
  have h : exRoaC7.calc_effect exIngC7 (-1) = some (-1) := by
    norm_num [RouteOfAdministration.calc_effect, RouteOfAdministration.dosage_type,
      exRoaC7, exIngC7, exSubstance, Ingestion.new, Ingestion.normalise_as_units,
      calcOnsetStep, calcComeupStep, DoseTimeRange.as_hours, DoseTimeRange.midpointCalc,
      lerp]
    decide
  refine ⟨h, ?_⟩
  rw [h]
  simp only [inUnitInterval]
  norm_num

/-- C7 (amended): for nonnegative elapsed time, phases with valid units
and nonnegative bounds, and an ingestion whose classification does not
panic, the effect value is defined and lies in `[0, 1]`. -/
theorem c7_effect_bounds (roa : RouteOfAdministration) (ing : Ingestion) (t : ℚ)
    (dt : DosageType) (hdt : roa.dosage_type ing = some dt) (ht : 0 ≤ t)
    (hu : walkPhasesValid roa.duration) (hn : walkPhasesNonneg roa.duration) :
    inUnitInterval (roa.calc_effect ing t) := by
  obtain ⟨hu1, hu2, hu3, hu4⟩ := hu
  obtain ⟨hn1, hn2, hn3, hn4⟩ := hn
  unfold RouteOfAdministration.calc_effect
  simp only [hdt]
  split_ifs with hb
  · simp [inUnitInterval]
  · exact calcOnsetStep_bounds roa.duration t ht hu1 hn1 hu2 hn2 hu3 hn3 hu4 hn4

/-- Witness for the amended C7: comeup 0–2 h, elapsed 0.5 h. -/
theorem c7_effect_bounds_witness :
    exRoaC7.dosage_type exIngC7 = some DosageType.Heavy ∧
    (0 : ℚ) ≤ 1 / 2 ∧
    inUnitInterval (exRoaC7.calc_effect exIngC7 (1 / 2)) :=
  ⟨by decide, by norm_num,
   c7_effect_bounds exRoaC7 exIngC7 (1 / 2) DosageType.Heavy (by decide) (by norm_num)
     (by simp [exRoaC7, walkPhasesValid, phaseUnitsValid])
     (by norm_num [exRoaC7, walkPhasesNonneg, phaseNonneg])⟩

/-! ### Route lookup precondition of `Ingestion::roa` (C10) -/

/-- C10: `Ingestion::roa()` succeeds exactly when the ingestion's
substance documents a route of the ingestion's kind (otherwise the
`.unwrap()` of the absent lookup result is a fatal panic, modelled
`none`); on success the returned profile is a documented route of the
matching kind. -/
theorem c10_roa_lookup (ing : Ingestion) :
    ((ing.roa).isSome ↔
      ∃ r ∈ ing.substance.routes_of_administration,
        r.ty = ing.route_of_administration) ∧
    (∀ r, ing.roa = some r →
      r.ty = ing.route_of_administration ∧
        r ∈ ing.substance.routes_of_administration) := by
  constructor
  · unfold Ingestion.roa Substance.route_of_administration
    rw [List.find?_isSome]
    simp
  · intro r hr
    unfold Ingestion.roa Substance.route_of_administration at hr
    have h1 := List.find?_some hr
    have h2 := List.mem_of_find?_eq_some hr
    simp at h1
    exact ⟨h1, h2⟩

/-- Witness for C10 at a substance documenting exactly the oral route. -/
theorem c10_roa_lookup_witness :
    (exIng10.roa).isSome ∧
    exRoaA3.ty = exIng10.route_of_administration ∧
    exRoaA3 ∈ exIng10.substance.routes_of_administration := by
  have h := c10_roa_lookup exIng10
  have hsome : exIng10.roa = some exRoaA3 := by decide
  have h2 := h.2 exRoaA3 hsome
  exact ⟨by rw [hsome]; rfl, h2⟩

end PWiki
